import Mathlib

/-!
Shallow embedding of the SGP40 gas-sensor protocol driver (crate
erust-sensirion, files src/lib.rs and src/commands.rs) and proofs of its
specified properties.

Bytes (u8) are embedded as natural numbers; 8-bit truncating arithmetic is
made explicit with % 256. The i2c bus collaborator is embedded as a function
from a transaction request (address, bytes written, number of bytes to read)
to either a transport error or the bytes read; self_test additionally returns
the list of transactions it issued, so that its bus effect is part of the
embedding.
-/

namespace Sensirion

/-- The fixed 7-bit bus address of the sensor, `const ADDR: u8 = 0x59`. -/
def ADDR : Nat := 0x59

namespace commands

/-- `pub const CMD_GET_SERIAL_NUMBER: [u8; 2] = [0x36, 0x82]` -/
def CMD_GET_SERIAL_NUMBER : Nat × Nat := (0x36, 0x82)

/-- `pub const CMD_TURN_HEATER_OFF: [u8; 2] = [0x36, 0x15]` -/
def CMD_TURN_HEATER_OFF : Nat × Nat := (0x36, 0x15)

/-- `pub const CMD_EXECUTE_SELF_TEST: [u8; 2] = [0x28, 0x0e]` -/
def CMD_EXECUTE_SELF_TEST : Nat × Nat := (0x28, 0x0e)

/-- `pub const CMD_MEASURE_RAW_SIGNAL: [u8; 2] = [0x26, 0x02]` -/
def CMD_MEASURE_RAW_SIGNAL : Nat × Nat := (0x26, 0x02)

end commands

/-- `pub enum Sgp40Error<I2cError> { InvalidResponse, InvalidCrc, I2c(I2cError) }` -/
inductive Sgp40Error (E : Type) where
  | InvalidResponse : Sgp40Error E
  | InvalidCrc : Sgp40Error E
  | I2c (err : E) : Sgp40Error E
  deriving DecidableEq

/-- The `kind` method of `impl embedded_hal::i2c::Error for Sgp40Error<E>`.
The external ErrorKind type of the embedded-hal crate is abstracted as a type
`K` with the distinguished value `other` standing for `ErrorKind::Other`, and
`ekind` standing for the `kind` method of the wrapped transport error type.
The body mirrors the source match: the `I2c` variant delegates to the kind of
the wrapped error, every other variant yields `Other`. -/
def Sgp40Error.kind {E K : Type} (other : K) (ekind : E → K) :
    Sgp40Error E → K
  | .I2c err => ekind err
  | _ => other

/-- One round of the inner `for _ in 0..8` loop of `SGP40::crc`:
`if crc & 0x80 != 0 { crc = (crc << 1) ^ 0x31 } else { crc <<= 1 }`,
the u8 left shift truncating to 8 bits. -/
def crcRound (c : Nat) : Nat :=
  if c &&& 0x80 ≠ 0 then ((c <<< 1) % 256) ^^^ 0x31 else (c <<< 1) % 256

/-- The body of the outer `for byte in data` loop of `SGP40::crc`:
`crc ^= byte` followed by the 8 inner rounds. -/
def crcByte (c b : Nat) : Nat := crcRound^[8] (c ^^^ b)

/-- `SGP40::crc(data: &[u8; 2]) -> u8`: the accumulator starts at `0xff`,
then the outer loop runs over the two data bytes in order. -/
def crc (data : Nat × Nat) : Nat := [data.1, data.2].foldl crcByte 0xff

/-- `SGP40::check_crc(data: &[u8; 3])`: recompute the crc of the first two
bytes and compare with the third; on mismatch `Err(Sgp40Error::InvalidCrc)`,
otherwise `Ok(())`. -/
def check_crc {E : Type} (data : Nat × Nat × Nat) : Except (Sgp40Error E) Unit :=
  if crc (data.1, data.2.1) ≠ data.2.2 then .error .InvalidCrc else .ok ()

/-- An i2c write-then-read transaction request: target address, bytes
written, and number of bytes to read back. -/
structure Transaction where
  addr : Nat
  written : List Nat
  readLen : Nat
  deriving DecidableEq

/-- The one transaction `self_test` issues:
`self.i2c.write_read(ADDR, &commands::CMD_EXECUTE_SELF_TEST, &mut result)`
with `result` a 3-byte buffer. -/
def selfTestTransaction : Transaction :=
  ⟨ADDR, [commands.CMD_EXECUTE_SELF_TEST.1, commands.CMD_EXECUTE_SELF_TEST.2], 3⟩

/-- `SGP40::self_test`. The bus is a function from a transaction request to a
transport error or the 3 bytes read; the result pairs the list of issued
transactions with the returned Result. The `?` on `write_read` wraps a
transport error through `From<E> for Sgp40Error<E>` into `Sgp40Error::I2c`;
the `?` on `check_crc` propagates its error unchanged; then the first
response byte is matched: `0xd4 => Ok(true)`, `0x4b => Ok(false)`,
`_ => Err(Sgp40Error::InvalidResponse)`. -/
def self_test {E : Type} (bus : Transaction → Except E (Nat × Nat × Nat)) :
    List Transaction × Except (Sgp40Error E) Bool :=
  match bus selfTestTransaction with
  | .error e => ([selfTestTransaction], .error (Sgp40Error.I2c e))
  | .ok result =>
    ([selfTestTransaction],
      match check_crc result with
      | .error e => .error e
      | .ok _ =>
        match result.1 with
        | 0xd4 => .ok true
        | 0x4b => .ok false
        | _ => .error Sgp40Error.InvalidResponse)

/-- Modelled from the words of the spec (section 4.1), for comparison with the
source translation `crc`: initialize an accumulator to 0xFF; for each of the
2 input bytes, exclusive-OR it into the accumulator, then perform 8 rounds
of: if the top bit of the accumulator is set, shift left one bit and
exclusive-OR with polynomial constant 0x31; otherwise shift left one bit
(8-bit truncating arithmetic throughout). The top-bit test and the left shift
are written arithmetically here, independently of the bitwise formulation of
the source. This is one round. -/
def checksumSpecRound (c : Nat) : Nat :=
  if c / 128 % 2 = 1 then (c * 2 % 256) ^^^ 0x31 else c * 2 % 256

/-- Spec-modelled per-byte step: exclusive-OR the byte in, then 8 rounds. -/
def checksumSpecByte (c b : Nat) : Nat := checksumSpecRound^[8] (c ^^^ b)

/-- Spec-modelled checksum of a 2-byte input. -/
def checksumSpec (b0 b1 : Nat) : Nat :=
  checksumSpecByte (checksumSpecByte 0xff b0) b1

set_option maxRecDepth 8192 in
/-- Helper: on byte-sized accumulators one source round agrees with one
spec-modelled round, and keeps the accumulator byte-sized. -/
theorem crcRound_eq_spec : ∀ c < 256, crcRound c = checksumSpecRound c ∧ crcRound c < 256 := by
  decide

/-- Helper: iterating the round preserves the agreement and the byte bound. -/
theorem crcRound_iterate (n : Nat) :
    ∀ c < 256, crcRound^[n] c = checksumSpecRound^[n] c ∧ crcRound^[n] c < 256 := by
  induction n with
  | zero => intro c hc; exact ⟨rfl, hc⟩
  | succ n ih =>
    intro c hc
    obtain ⟨he, hlt⟩ := crcRound_eq_spec c hc
    rw [Function.iterate_succ_apply, Function.iterate_succ_apply, he]
    exact ih (checksumSpecRound c) (he ▸ hlt)

/-- Helper: the per-byte step agrees with the spec-modelled per-byte step on
byte inputs and returns a byte. -/
theorem crcByte_eq_spec (c b : Nat) (hc : c < 256) (hb : b < 256) :
    crcByte c b = checksumSpecByte c b ∧ crcByte c b < 256 := by
  have hx : c ^^^ b < 256 := show c ^^^ b < 2 ^ 8 from Nat.xor_lt_two_pow hc hb
  exact crcRound_iterate 8 (c ^^^ b) hx

/-- Claim C2: for every 2-byte input, `SGP40::crc` computes exactly the
algorithm the spec describes (accumulator 0xFF; per byte: xor in, then 8
rounds of top-bit test, truncating shift, conditional xor with 0x31), and the
result is an 8-bit value. Totality with no failure mode is inherent in the
embedding: `crc` is a total function into Nat. -/
theorem crc_eq_checksumSpec (b0 b1 : Nat) (h0 : b0 < 256) (h1 : b1 < 256) :
    crc (b0, b1) = checksumSpec b0 b1 ∧ crc (b0, b1) < 256 := by
  have s0 := crcByte_eq_spec 0xff b0 (by norm_num) h0
  have s1 := crcByte_eq_spec (crcByte 0xff b0) b1 s0.2 h1
  refine ⟨?_, s1.2⟩
  show crcByte (crcByte 0xff b0) b1 = checksumSpecByte (checksumSpecByte 0xff b0) b1
  rw [s1.1, s0.1]

/-- Witness for C2 at the concrete input bytes 0x12, 0x34. -/
theorem crc_eq_checksumSpec_witness :
    crc (0x12, 0x34) = checksumSpec 0x12 0x34 ∧ crc (0x12, 0x34) < 256 :=
  crc_eq_checksumSpec 0x12 0x34 (by norm_num) (by norm_num)

/-- Claim C1: for every 3-byte bus response whose checksum byte is valid,
`self_test` inspects the first payload byte and returns Ok(true) if it equals
0xD4, Ok(false) if it equals 0x4B, and Err(InvalidResponse) for every other
first-byte value. -/
theorem self_test_decodes_valid_response {E : Type}
    (bus : Transaction → Except E (Nat × Nat × Nat)) (r0 r1 : Nat)
    (hbus : bus selfTestTransaction = .ok (r0, r1, crc (r0, r1))) :
    (self_test bus).2 =
      if r0 = 0xd4 then .ok true
      else if r0 = 0x4b then .ok false
      else .error Sgp40Error.InvalidResponse := by
  have hcrc : (check_crc (r0, r1, crc (r0, r1)) : Except (Sgp40Error E) Unit) = .ok () := by
    simp [check_crc]
  simp only [self_test, hbus, hcrc]
  by_cases h4 : r0 = 0xd4
  · subst h4; rfl
  · by_cases hb : r0 = 0x4b
    · subst hb; rfl
    · simp only [if_neg h4, if_neg hb]

/-- Witness for C1: a bus returning [0xD4, 0x00, crc([0xD4, 0x00])] makes
`self_test` return Ok(true). -/
theorem self_test_decodes_valid_response_witness :
    (self_test (fun _ =>
        (.ok (0xd4, 0x00, crc (0xd4, 0x00)) : Except Unit (Nat × Nat × Nat)))).2 =
      .ok true := by
  have h := self_test_decodes_valid_response
    (fun _ => (.ok (0xd4, 0x00, crc (0xd4, 0x00)) : Except Unit (Nat × Nat × Nat)))
    0xd4 0x00 rfl
  simpa using h

/-- Claim C4: if the bus transaction inside `self_test` fails with transport
error e, then `self_test` returns the I2c variant wrapping e unchanged (and
the transaction list shows nothing further happened on the bus). -/
theorem self_test_transport_failure {E : Type}
    (bus : Transaction → Except E (Nat × Nat × Nat)) (e : E)
    (hbus : bus selfTestTransaction = .error e) :
    self_test bus = ([selfTestTransaction], .error (Sgp40Error.I2c e)) := by
  simp only [self_test, hbus]

/-- Witness for C4 with the unit transport error. -/
theorem self_test_transport_failure_witness :
    self_test (fun _ => (.error () : Except Unit (Nat × Nat × Nat))) =
      ([selfTestTransaction], .error (Sgp40Error.I2c ())) :=
  self_test_transport_failure (fun _ => .error ()) () rfl

/-- Claim C5: for every 3-byte bus response whose third byte differs from the
checksum of its first two bytes, `self_test` returns InvalidCrc. The theorem
holds uniformly in the payload bytes r0 and r1, so the result does not depend
on decoding the payload. -/
theorem self_test_checksum_mismatch {E : Type}
    (bus : Transaction → Except E (Nat × Nat × Nat)) (r0 r1 r2 : Nat)
    (hbus : bus selfTestTransaction = .ok (r0, r1, r2))
    (hne : r2 ≠ crc (r0, r1)) :
    (self_test bus).2 = .error Sgp40Error.InvalidCrc := by
  have hcrc : (check_crc (r0, r1, r2) : Except (Sgp40Error E) Unit) = .error .InvalidCrc := by
    simp [check_crc, Ne.symm hne]
  simp only [self_test, hbus, hcrc]

/-- Witness for C5 at the response [0xBE, 0x01, 0x92]. -/
theorem self_test_checksum_mismatch_witness :
    (self_test (fun _ => (.ok (0xbe, 0x01, 0x92) : Except Unit (Nat × Nat × Nat)))).2 =
      .error Sgp40Error.InvalidCrc :=
  self_test_checksum_mismatch (fun _ => .ok (0xbe, 0x01, 0x92)) 0xbe 0x01 0x92 rfl (by decide)

/-- Claim C6: every call to `self_test` performs exactly one bus transaction:
a write-then-read addressed to 0x59 that writes the 2-byte Execute-Self-Test
opcode [0x28, 0x0E] and reads exactly 3 bytes — whatever the bus answers.
The embedding of `self_test` is a pure function of the bus, so there is no
driver state to mutate and no caching across calls. -/
theorem self_test_single_transaction {E : Type}
    (bus : Transaction → Except E (Nat × Nat × Nat)) :
    (self_test bus).1 = [⟨0x59, [0x28, 0x0e], 3⟩] := by
  unfold self_test
  cases bus selfTestTransaction <;> rfl

/-- Claim C3: checksum-group verification of [p0, p1, c] succeeds iff c
equals crc([p0, p1]); otherwise it fails with InvalidCrc, a constant carrying
no further information. -/
theorem check_crc_iff {E : Type} (p0 p1 c : Nat) :
    ((check_crc (p0, p1, c) : Except (Sgp40Error E) Unit) = .ok () ↔ c = crc (p0, p1)) ∧
      (c ≠ crc (p0, p1) →
        (check_crc (p0, p1, c) : Except (Sgp40Error E) Unit) = .error Sgp40Error.InvalidCrc) := by
  constructor
  · constructor
    · intro h
      by_contra hne
      simp [check_crc, Ne.symm hne] at h
    · intro h
      simp [check_crc, h]
  · intro h
    simp [check_crc, Ne.symm h]

/-- Witness for C3 at the group [0x12, 0x34, 0x00], whose checksum byte is
wrong. -/
theorem check_crc_iff_witness :
    (check_crc (0x12, 0x34, 0x00) : Except (Sgp40Error Unit) Unit) =
      .error Sgp40Error.InvalidCrc :=
  (check_crc_iff 0x12 0x34 0x00).2 (by decide)

/-- Claim C7: crc([0xBE, 0xEF]) = 0x92, verification succeeds on
[0xBE, 0xEF, 0x92], and verification of [0xBE, 0x01, 0x92] fails with
InvalidCrc — the two concrete vectors of the unit test `tests::test_crc`. -/
theorem crc_concrete_vectors :
    crc (0xbe, 0xef) = 0x92 ∧
      (check_crc (0xbe, 0xef, 0x92) : Except (Sgp40Error Unit) Unit) = .ok () ∧
      (check_crc (0xbe, 0x01, 0x92) : Except (Sgp40Error Unit) Unit) =
        .error Sgp40Error.InvalidCrc :=
  ⟨by rfl, by rfl, by rfl⟩

/-- Claim C8: the command table maps Get Serial Number to [0x36, 0x82], Turn
Heater Off to [0x36, 0x15], Execute Self-Test to [0x28, 0x0E], and Measure
Raw Signal to [0x26, 0x02]; each is a fixed constant. -/
theorem command_table_opcodes :
    commands.CMD_GET_SERIAL_NUMBER = (0x36, 0x82) ∧
      commands.CMD_TURN_HEATER_OFF = (0x36, 0x15) ∧
      commands.CMD_EXECUTE_SELF_TEST = (0x28, 0x0e) ∧
      commands.CMD_MEASURE_RAW_SIGNAL = (0x26, 0x02) :=
  ⟨rfl, rfl, rfl, rfl⟩

/-- Claim C9: the checksum computation is deterministic — two calls on equal
inputs yield equal outputs. In the embedding `crc` is a pure function with no
state argument, so this is exactly congruence. -/
theorem crc_deterministic (d₁ d₂ : Nat × Nat) (h : d₁ = d₂) : crc d₁ = crc d₂ := by
  rw [h]

/-- Witness for C9 at the input (0x01, 0x02). -/
theorem crc_deterministic_witness : crc (0x01, 0x02) = crc (0x01, 0x02) :=
  crc_deterministic (0x01, 0x02) (0x01, 0x02) rfl

/-- Claim C10: the error classification reports the kind of the wrapped
transport error for the I2c variant, and the Other kind for both the
InvalidResponse and InvalidCrc variants, for every wrapped error value and
every abstraction of the external ErrorKind type. -/
theorem sgp40Error_kind_classification {E K : Type} (other : K) (ekind : E → K) (e : E) :
    Sgp40Error.kind other ekind (Sgp40Error.I2c e) = ekind e ∧
      Sgp40Error.kind other ekind (.InvalidResponse : Sgp40Error E) = other ∧
      Sgp40Error.kind other ekind (.InvalidCrc : Sgp40Error E) = other :=
  ⟨rfl, rfl, rfl⟩

end Sensirion
